import Mathlib

/-!
Verification of the measurement and costing core of `dxf_report_generator.py`.

The embedding translates the pure computational core of the script:
per-entity length computation (`calculate_line_length`,
`calculate_polyline_length`, `calculate_circle_length`,
`calculate_arc_length`, `calculate_spline_length`), the drawing-level
aggregation (`calculate_total_length`, `calculate_bounding_box_area`,
`get_entity_vertices`), the filename quantity resolver
(`extract_quantity_from_filename`), and the pricing loop inside
`create_pdf`.

Modelling conventions:
* Python floats are modelled as real numbers (`ℝ`); `math.hypot a b`
  is `Real.sqrt (a^2 + b^2)`, `math.radians d` is `d * π / 180`.
* Points are 2D pairs; the source only ever reads coordinates `[0]`
  and `[1]` of an entity's points (`[:2]` slices), so the embedding
  carries 2D points directly.
* A DXF entity is a closed sum over the dxftypes the source
  dispatches on (`LINE`, `LWPOLYLINE`/`POLYLINE`, `CIRCLE`, `ARC`,
  `SPLINE`) plus an `UNSUPPORTED` constructor for every other
  dxftype, which falls through each `if`/`elif` chain.  A `SPLINE`
  is carried by the polyline produced by `entity.approximate(100)`,
  since the source only ever consumes that approximation.
* Code that can raise a Python exception returns `Option`: the one
  genuine raise site in the embedded core is `points[-1]` in
  `calculate_polyline_length` on a closed polyline with no points
  (an `IndexError`).  The `try`/`except` blocks of
  `calculate_total_length` and `calculate_bounding_box_area` turn a
  `none` into a zero / empty contribution, exactly as the source's
  `continue` does.
-/

noncomputable section

abbrev Point := ℝ × ℝ

/-- `math.hypot dx dy` of the Python standard library. -/
def hypot (dx dy : ℝ) : ℝ := Real.sqrt (dx ^ 2 + dy ^ 2)

/-- `math.radians d`: degrees to radians. -/
def radians (d : ℝ) : ℝ := d * Real.pi / 180

/-- The DXF entities the source dispatches on.  `LWPOLYLINE` covers both
`LWPOLYLINE` and `POLYLINE` (the source treats them identically);
`SPLINE` carries the 100-segment polyline approximation the source
obtains from `entity.approximate(segments=100)`; `UNSUPPORTED` is any
other dxftype, which every dispatch chain falls through. -/
inductive Entity
  | LINE (start stop : Point)
  | LWPOLYLINE (points : List Point) (closed : Bool)
  | CIRCLE (center : Point) (radius : ℝ)
  | ARC (center : Point) (radius : ℝ) (start_angle end_angle : ℝ)
  | SPLINE (spline_points : List Point)
  | UNSUPPORTED

/-- `calculate_line_length` (source lines 51-55): Euclidean distance
between the two endpoints. -/
def calculate_line_length (start stop : Point) : ℝ :=
  hypot (stop.1 - start.1) (stop.2 - start.2)

/-- The `for i in range(len(points) - 1)` loop of
`calculate_polyline_length` and `calculate_spline_length`: sum of
consecutive-pair distances. -/
def consecSum : List Point → ℝ
  | p :: q :: rest => calculate_line_length p q + consecSum (q :: rest)
  | _ => 0

/-- `calculate_polyline_length` (source lines 58-69).  When `closed`
is set the source reads `points[-1]` and `points[0]`; on an empty
point list that raises `IndexError`, modelled by `none`.  On
`p :: rest` the last element `points[-1]` is `rest.getLastD p` and
`points[0]` is `p`. -/
def calculate_polyline_length (points : List Point) (closed : Bool) : Option ℝ :=
  if closed then
    match points with
    | [] => none
    | p :: rest =>
        some (consecSum (p :: rest) + calculate_line_length (rest.getLastD p) p)
  else
    some (consecSum points)

/-- `calculate_circle_length` (source lines 72-74). -/
def calculate_circle_length (radius : ℝ) : ℝ := 2 * Real.pi * radius

/-- The normalized sweep angle of `calculate_arc_length`:
`end − start` in radians, plus `2π` when negative. -/
def arcSweep (start_angle end_angle : ℝ) : ℝ :=
  if radians end_angle - radians start_angle < 0 then
    radians end_angle - radians start_angle + 2 * Real.pi
  else
    radians end_angle - radians start_angle

/-- `calculate_arc_length` (source lines 77-84): the angle
`end − start` in radians, incremented by `2π` when negative, times
the radius. -/
def calculate_arc_length (radius start_angle end_angle : ℝ) : ℝ :=
  radius *
    (if radians end_angle - radians start_angle < 0 then
      radians end_angle - radians start_angle + 2 * Real.pi
    else
      radians end_angle - radians start_angle)

/-- `calculate_spline_length` (source lines 87-94): consecutive-pair
sum over the 100-segment approximation. -/
def calculate_spline_length (spline_points : List Point) : ℝ :=
  consecSum spline_points

/-- Per-entity length as dispatched by the `if`/`elif` chain of
`calculate_total_length` (source lines 31-44).  `none` models an
exception escaping the per-entity computation; an `UNSUPPORTED`
dxftype leaves `length = 0.0`. -/
def entityLength : Entity → Option ℝ
  | .LINE p q => some (calculate_line_length p q)
  | .LWPOLYLINE points closed => calculate_polyline_length points closed
  | .CIRCLE _ radius => some (calculate_circle_length radius)
  | .ARC _ radius start_angle end_angle =>
      some (calculate_arc_length radius start_angle end_angle)
  | .SPLINE spline_points => some (calculate_spline_length spline_points)
  | .UNSUPPORTED => some 0

/-- `calculate_total_length` (source lines 24-48): fold over the
modelspace entities; `total_length += length` is skipped when the
entity's processing raises (`except ... continue`). -/
def calculate_total_length (entities : List Entity) : ℝ :=
  entities.foldl (fun acc e => acc + (entityLength e).getD 0) 0

/-- `get_entity_vertices` (source lines 123-156).  In the embedding
the entity fields are always present, so this function is total (the
`try` around it in `calculate_bounding_box_area` only fires for
malformed attribute access, which a typed entity cannot exhibit). -/
def get_entity_vertices : Entity → List Point
  | .LINE p q => [p, q]
  | .LWPOLYLINE points _ => points
  | .CIRCLE c radius =>
      [(c.1 - radius, c.2), (c.1 + radius, c.2),
       (c.1, c.2 - radius), (c.1, c.2 + radius)]
  | .ARC c radius start_angle end_angle =>
      [(c.1 + radius * Real.cos (radians start_angle),
        c.2 + radius * Real.sin (radians start_angle)),
       (c.1 + radius * Real.cos (radians end_angle),
        c.2 + radius * Real.sin (radians end_angle))]
  | .SPLINE spline_points => spline_points
  | .UNSUPPORTED => []

/-- The four running extrema of `calculate_bounding_box_area`,
each `None` until the first point is seen. -/
structure BBox where
  min_x : Option ℝ
  min_y : Option ℝ
  max_x : Option ℝ
  max_y : Option ℝ

/-- `x if o is None else f o x`. -/
def optFold (f : ℝ → ℝ → ℝ) (o : Option ℝ) (x : ℝ) : ℝ :=
  match o with
  | none => x
  | some m => f m x

/-- One iteration of the inner `for x, y in vertices` loop of
`calculate_bounding_box_area` (source lines 106-110). -/
def updateBBox (b : BBox) (p : Point) : BBox :=
  ⟨some (optFold min b.min_x p.1),
   some (optFold min b.min_y p.2),
   some (optFold max b.max_x p.1),
   some (optFold max b.max_y p.2)⟩

/-- Folding a list of vertices through the running extrema. -/
def foldPts (b : BBox) (ps : List Point) : BBox :=
  ps.foldl updateBBox b

/-- The entity loop of `calculate_bounding_box_area` (source lines
103-113), starting from all-`None` extrema. -/
def bboxOfEntities (entities : List Entity) : BBox :=
  entities.foldl (fun b e => foldPts b (get_entity_vertices e)) ⟨none, none, none, none⟩

/-- The final `if None not in (...)` computation of
`calculate_bounding_box_area` (source lines 114-120). -/
def bboxArea (b : BBox) : ℝ :=
  match b.min_x, b.min_y, b.max_x, b.max_y with
  | some mn_x, some mn_y, some mx_x, some mx_y =>
      (mx_x - mn_x) * (mx_y - mn_y) / 1000000
  | _, _, _, _ => 0

/-- `calculate_bounding_box_area` (source lines 97-120). -/
def calculate_bounding_box_area (entities : List Entity) : ℝ :=
  bboxArea (bboxOfEntities entities)

end

/-- Index of the last occurrence of `target` in a character list. -/
def lastIndexOf (target : Char) : List Char → Option ℕ
  | [] => none
  | c :: cs =>
      match lastIndexOf target cs with
      | some i => some (i + 1)
      | none => if c = target then some 0 else none

/-- The stem part of `os.path.splitext(filename)[0]` for a filename
with no path separators (the source always passes a bare filename
from `os.listdir`): cut at the last dot, unless every character
before that dot is itself a dot, in which case nothing is cut. -/
def splitextStem (cs : List Char) : List Char :=
  match lastIndexOf '.' cs with
  | none => cs
  | some i => if (cs.take i).any (fun c => c ≠ '.') then cs.take i else cs

/-- `base_name.rsplit(sep, 1)` for a single-character separator:
`none` when the separator does not occur (Python returns the
one-element list `[base_name]`), otherwise the two parts around the
last occurrence. -/
def rsplitLast (sep : Char) (cs : List Char) : Option (List Char × List Char) :=
  match lastIndexOf sep cs with
  | none => none
  | some i => some (cs.take i, cs.drop (i + 1))

/-- Python `str.isdigit` restricted to ASCII decimal digits: true on
a nonempty string of decimal digits.  The source only feeds the
result to `int(...)`, which agrees with this reading. -/
def pythonIsDigit (cs : List Char) : Bool :=
  !cs.isEmpty && cs.all Char.isDigit

/-- `int(...)` on a string of decimal digits. -/
def parseNatDigits (cs : List Char) : ℕ :=
  cs.foldl (fun n c => n * 10 + (c.toNat - '0'.toNat)) 0

/-- `extract_quantity_from_filename` (source lines 269-280):
`base_name = os.path.splitext(filename)[0]`, `parts =
base_name.rsplit(sep, 1)` with an underscore separator, then the
parsed trailing part when it is all digits, else 1. -/
def extract_quantity_from_filename (filename : String) : ℕ :=
  match rsplitLast '_' (splitextStem filename.data) with
  | some parts => if pythonIsDigit parts.2 then parseNatDigits parts.2 else 1
  | none => 1

/-- The trailing all-digit segment the resolver would parse, when one
is present. -/
def trailingDigitSegment (filename : String) : Option (List Char) :=
  match rsplitLast '_' (splitextStem filename.data) with
  | some parts => if pythonIsDigit parts.2 then some parts.2 else none
  | none => none

/-- Whether the filename carries a digit suffix parsing to zero. -/
def hasZeroQuantitySuffix (filename : String) : Bool :=
  match trailingDigitSegment filename with
  | some t => parseNatDigits t == 0
  | none => false

noncomputable section

/-- One entry of the `data` list handed to `create_pdf` (source
lines 310-315): the per-file measurements and the quantity. -/
structure DataRow where
  filename : String
  quantity : ℕ
  total_length : ℝ
  area : ℝ

/-- The derived costs of one table row of `create_pdf`. -/
structure PricedRow where
  cutting_cost : ℝ
  material_cost : ℝ
  total_cost : ℝ

/-- The `for item in data` costing loop of `create_pdf` (source lines
234-253), threading the running `grand_total` through the rows. -/
def create_pdf_costs (cost_per_meter cost_per_square_meter : ℝ) :
    List DataRow → ℝ → List PricedRow × ℝ
  | [], grand_total => ([], grand_total)
  | item :: rest, grand_total =>
      let cutting_cost := item.total_length / 1000 * cost_per_meter * item.quantity
      let material_cost := item.area * cost_per_square_meter * item.quantity
      let total := cutting_cost + material_cost
      let res := create_pdf_costs cost_per_meter cost_per_square_meter rest (grand_total + total)
      (⟨cutting_cost, material_cost, total⟩ :: res.1, res.2)

/-- The priced table and grand total computed by `create_pdf`,
starting from `grand_total = 0.0`. -/
def create_pdf_summary (data : List DataRow) (cost_per_meter cost_per_square_meter : ℝ) :
    List PricedRow × ℝ :=
  create_pdf_costs cost_per_meter cost_per_square_meter data 0

/-- The per-row pricing formulas as the spec states them. -/
def pricedRowSpec (cost_per_meter cost_per_square_meter : ℝ) (r : DataRow) : PricedRow :=
  ⟨r.total_length / 1000 * cost_per_meter * r.quantity,
   r.area * cost_per_square_meter * r.quantity,
   r.total_length / 1000 * cost_per_meter * r.quantity
     + r.area * cost_per_square_meter * r.quantity⟩

/-- The spec's reading of a Path length: the sum of the Euclidean
distances over the zipped consecutive pairs of vertices. -/
def pairDistSum (ps : List Point) : ℝ :=
  ((ps.zip ps.tail).map (fun pq => calculate_line_length pq.1 pq.2)).sum

/-- Every extent point the bounding-box loop visits, in visit
order. -/
def allPoints (entities : List Entity) : List Point :=
  entities.foldr (fun e acc => get_entity_vertices e ++ acc) []

/-- The shape invariant of the running extrema: either no point has
been seen (all four are `None`) or all four are set with each
minimum below its maximum. -/
def goodBBox (b : BBox) : Prop :=
  b = ⟨none, none, none, none⟩ ∨
  ∃ mn_x mn_y mx_x mx_y, b = ⟨some mn_x, some mn_y, some mx_x, some mx_y⟩ ∧
    mn_x ≤ mx_x ∧ mn_y ≤ mx_y

end

section PricingLemmas

lemma create_pdf_costs_fst (cpm cps : ℝ) (data : List DataRow) :
    ∀ g : ℝ, (create_pdf_costs cpm cps data g).1 = data.map (pricedRowSpec cpm cps) := by
  induction data with
  | nil => intro g; rfl
  | cons item rest ih =>
      intro g
      simp [create_pdf_costs, ih, pricedRowSpec]

lemma create_pdf_costs_snd (cpm cps : ℝ) (data : List DataRow) :
    ∀ g : ℝ, (create_pdf_costs cpm cps data g).2 =
      g + ((data.map (pricedRowSpec cpm cps)).map PricedRow.total_cost).sum := by
  induction data with
  | nil => intro g; simp [create_pdf_costs]
  | cons item rest ih =>
      intro g
      simp [create_pdf_costs, ih, pricedRowSpec]
      ring

lemma foldl_add_totals (cpm cps : ℝ) (data : List DataRow) :
    ∀ g : ℝ, data.foldl (fun acc r => acc + (pricedRowSpec cpm cps r).total_cost) g =
      g + ((data.map (pricedRowSpec cpm cps)).map PricedRow.total_cost).sum := by
  induction data with
  | nil => intro g; simp
  | cons item rest ih =>
      intro g
      simp [ih]
      ring

end PricingLemmas

/-- C1: for every sequence of report rows and rates, the costing loop
of `create_pdf` computes `cutting_cost = (total_length / 1000) *
cost_per_meter * quantity`, `material_cost = area *
cost_per_square_meter * quantity`, `total_cost = cutting_cost +
material_cost` for each row (that is `pricedRowSpec`), and the grand
total equals the left-to-right accumulated sum of every row's
`total_cost`, exactly. -/
theorem create_pdf_pricing_correct (data : List DataRow) (cpm cps : ℝ) :
    (create_pdf_summary data cpm cps).1 = data.map (pricedRowSpec cpm cps) ∧
    (create_pdf_summary data cpm cps).2 =
      (((create_pdf_summary data cpm cps).1).map PricedRow.total_cost).sum ∧
    (create_pdf_summary data cpm cps).2 =
      data.foldl (fun acc r => acc + (pricedRowSpec cpm cps r).total_cost) 0 := by
  unfold create_pdf_summary
  refine ⟨create_pdf_costs_fst cpm cps data 0, ?_, ?_⟩
  · rw [create_pdf_costs_fst cpm cps data 0, create_pdf_costs_snd cpm cps data 0]
    ring
  · rw [create_pdf_costs_snd cpm cps data 0, foldl_add_totals cpm cps data 0]

section ArcLemmas

lemma arcSweep_self (s : ℝ) : arcSweep s s = 0 := by
  unfold arcSweep
  simp

end ArcLemmas

/-- C2 (amended): for every Arc, `calculate_arc_length` equals the
sweep angle times the radius, where the sweep is the radian
difference `end − start` with `2π` added when negative; an Arc with
`start_angle = end_angle` has sweep `0` and zero length; and the
sweep lies in `[0, 2π)` whenever the raw degree difference lies in
`(-360, 360)` (for differences outside that window the single `+2π`
correction does not reach `[0, 2π)`). -/
theorem arc_length_spec (radius start_angle end_angle : ℝ) :
    calculate_arc_length radius start_angle end_angle =
      radius * arcSweep start_angle end_angle ∧
    (-360 < end_angle - start_angle → end_angle - start_angle < 360 →
      0 ≤ arcSweep start_angle end_angle ∧
      arcSweep start_angle end_angle < 2 * Real.pi) ∧
    (start_angle = end_angle →
      arcSweep start_angle end_angle = 0 ∧
      calculate_arc_length radius start_angle end_angle = 0) := by
  refine ⟨rfl, ?_, ?_⟩
  · intro h1 h2
    have hpi : (0:ℝ) < Real.pi := Real.pi_pos
    have hlow : -(2 * Real.pi) < radians end_angle - radians start_angle := by
      unfold radians
      nlinarith [mul_pos hpi (show (0:ℝ) < end_angle - start_angle + 360 by linarith)]
    have hhigh : radians end_angle - radians start_angle < 2 * Real.pi := by
      unfold radians
      nlinarith [mul_pos hpi (show (0:ℝ) < 360 - (end_angle - start_angle) by linarith)]
    unfold arcSweep
    by_cases hneg : radians end_angle - radians start_angle < 0
    · rw [if_pos hneg]
      constructor <;> linarith
    · rw [if_neg hneg]
      push_neg at hneg
      constructor <;> linarith
  · intro h
    subst h
    refine ⟨arcSweep_self start_angle, ?_⟩
    unfold calculate_arc_length
    simp

/-- Witness for C2's amended theorem at a concrete arc. -/
theorem arc_length_spec_witness :
    0 ≤ arcSweep 0 90 ∧ arcSweep 0 90 < 2 * Real.pi :=
  (arc_length_spec 1 0 90).2.1 (by norm_num) (by norm_num)

/-- C2 counterexample: an Arc spanning a raw difference of 720
degrees gets sweep `4π`, which is not in `[0, 2π)`; the code never
reduces a nonnegative difference modulo `2π`. -/
theorem arc_sweep_not_normalized :
    arcSweep 0 720 = 4 * Real.pi ∧ ¬ arcSweep 0 720 < 2 * Real.pi := by
  have hpi : (0:ℝ) < Real.pi := Real.pi_pos
  have h4 : arcSweep 0 720 = 4 * Real.pi := by
    unfold arcSweep radians
    rw [if_neg]
    · ring
    · push_neg
      nlinarith
  refine ⟨h4, ?_⟩
  rw [h4]
  push_neg
  nlinarith



/-- C3 (amended): `extract_quantity_from_filename` returns a positive
integer, and 1 when no valid all-digit suffix is present — except
when the trailing all-digit segment parses to zero, in which case it
returns 0. -/
theorem extract_quantity_positive (filename : String)
    (h : hasZeroQuantitySuffix filename = false) :
    1 ≤ extract_quantity_from_filename filename ∧
    (trailingDigitSegment filename = none →
      extract_quantity_from_filename filename = 1) := by
  cases hr : rsplitLast '_' (splitextStem filename.data) with
  | none =>
      simp [extract_quantity_from_filename, trailingDigitSegment, hr]
  | some parts =>
      by_cases hd : pythonIsDigit parts.2
      · have hz : parseNatDigits parts.2 ≠ 0 := by
          simp [hasZeroQuantitySuffix, trailingDigitSegment, hr, hd] at h
          exact h
        constructor
        · simp only [extract_quantity_from_filename, hr, hd, if_true]
          omega
        · intro hcontra
          simp [trailingDigitSegment, hr, hd] at hcontra
      · simp [extract_quantity_from_filename, trailingDigitSegment, hr, hd]

/-- Witness for C3's amended theorem on a filename with a nonzero
digit suffix. -/
theorem extract_quantity_positive_witness :
    1 ≤ extract_quantity_from_filename "panel_3.ext" :=
  (extract_quantity_positive "panel_3.ext" (by decide)).1

/-- C3 counterexample: the suffix `_0` is a valid all-digit quantity
suffix and parses to 0, so the function returns 0, which is not a
positive integer. -/
theorem extract_quantity_zero_counterexample :
    extract_quantity_from_filename "panel_0.ext" = 0 ∧
    ¬ 1 ≤ extract_quantity_from_filename "panel_0.ext" := by
  refine ⟨by decide, by decide⟩

/-- C4: `extract_quantity_from_filename` strips the extension, splits
the stem at the last underscore, parses the trailing segment when it
is a nonempty run of decimal digits, and returns 1 otherwise; only
the final underscore-delimited segment is considered, leading zeros
parse as their numeric value. -/
theorem extract_quantity_contract (filename : String) :
    (∀ a t, rsplitLast '_' (splitextStem filename.data) = some (a, t) →
      (pythonIsDigit t = true →
        extract_quantity_from_filename filename = parseNatDigits t) ∧
      (pythonIsDigit t = false →
        extract_quantity_from_filename filename = 1)) ∧
    (rsplitLast '_' (splitextStem filename.data) = none →
      extract_quantity_from_filename filename = 1) ∧
    extract_quantity_from_filename "panel_12_7.ext" = 7 ∧
    extract_quantity_from_filename "panel_abc.ext" = 1 ∧
    extract_quantity_from_filename "panel_12.ext" = 12 ∧
    extract_quantity_from_filename "panel.ext" = 1 ∧
    extract_quantity_from_filename "part_007.dxf" = 7 := by
  refine ⟨?_, ?_, by decide, by decide, by decide, by decide, by decide⟩
  · intro a t hr
    unfold extract_quantity_from_filename
    rw [hr]
    constructor
    · intro hd
      simp [hd]
    · intro hd
      simp [hd]
  · intro hr
    unfold extract_quantity_from_filename
    rw [hr]

/-- Witness for C4 at a concrete filename with digit suffix. -/
theorem extract_quantity_contract_witness :
    extract_quantity_from_filename "panel_12.ext" = parseNatDigits ['1', '2'] :=
  (((extract_quantity_contract "panel_12.ext").1 "panel".data ['1', '2']
    (by decide)).1) (by decide)

section PolylineLemmas

lemma consecSum_eq_pairDistSum : ∀ ps : List Point, consecSum ps = pairDistSum ps := by
  intro ps
  induction ps with
  | nil => rfl
  | cons p rest ih =>
      cases rest with
      | nil => simp [consecSum, pairDistSum]
      | cons q rest2 =>
          rw [show consecSum (p :: q :: rest2) =
            calculate_line_length p q + consecSum (q :: rest2) from rfl]
          rw [ih]
          simp [pairDistSum]

lemma calculate_line_length_self (p : Point) : calculate_line_length p p = 0 := by
  simp [calculate_line_length, hypot]

end PolylineLemmas

/-- C5 (amended): `calculate_polyline_length` with `closed = false`
is the sum of consecutive-pair Euclidean distances with no wraparound
edge; with `closed = true` exactly one extra edge from the last
vertex back to the first is added; a Path with 1 vertex yields length
0 for either value of `closed`, and a Path with 0 vertices yields 0
when open — but when closed the source indexes `points[-1]` and
raises `IndexError` (caught at the drawing boundary), rather than
yielding 0. -/
theorem polyline_length_spec (points : List Point) :
    calculate_polyline_length points false = some (pairDistSum points) ∧
    (∀ p rest, points = p :: rest →
      calculate_polyline_length points true =
        some (pairDistSum points + calculate_line_length (rest.getLastD p) p)) ∧
    (∀ p : Point, calculate_polyline_length [p] false = some 0 ∧
      calculate_polyline_length [p] true = some 0) ∧
    calculate_polyline_length [] false = some 0 := by
  refine ⟨?_, ?_, ?_, rfl⟩
  · simp [calculate_polyline_length, consecSum_eq_pairDistSum]
  · intro p rest hp
    subst hp
    simp [calculate_polyline_length, consecSum_eq_pairDistSum]
  · intro p
    constructor
    · simp [calculate_polyline_length]
      rw [show consecSum [p] = 0 from rfl]
    · simp [calculate_polyline_length]
      rw [calculate_line_length_self]
      norm_num
      rfl

/-- Witness for C5's amended theorem on a two-vertex closed path. -/
theorem polyline_length_spec_witness :
    calculate_polyline_length [((0:ℝ), (0:ℝ)), ((3:ℝ), (4:ℝ))] true =
      some (pairDistSum [((0:ℝ), (0:ℝ)), ((3:ℝ), (4:ℝ))] +
        calculate_line_length ([((3:ℝ), (4:ℝ))].getLastD ((0:ℝ), (0:ℝ))) ((0:ℝ), (0:ℝ))) :=
  (polyline_length_spec _).2.1 ((0:ℝ), (0:ℝ)) [((3:ℝ), (4:ℝ))] rfl

/-- C5 counterexample: a closed Path with 0 vertices does not yield
length 0 — the source raises `IndexError` on `points[-1]`. -/
theorem polyline_closed_empty_counterexample :
    calculate_polyline_length [] true = none ∧
    calculate_polyline_length [] true ≠ some 0 := by
  refine ⟨rfl, by simp [calculate_polyline_length]⟩

section BBoxLemmas

lemma foldPts_append (b : BBox) (xs ys : List Point) :
    foldPts b (xs ++ ys) = foldPts (foldPts b xs) ys := by
  simp [foldPts, List.foldl_append]

lemma foldl_entities_eq (entities : List Entity) :
    ∀ b : BBox,
      entities.foldl (fun b e => foldPts b (get_entity_vertices e)) b =
        foldPts b (allPoints entities) := by
  induction entities with
  | nil => intro b; rfl
  | cons e es ih =>
      intro b
      rw [List.foldl_cons, ih,
        show allPoints (e :: es) = get_entity_vertices e ++ allPoints es from rfl,
        foldPts_append]

lemma bboxOfEntities_eq_foldPts (entities : List Entity) :
    bboxOfEntities entities = foldPts ⟨none, none, none, none⟩ (allPoints entities) :=
  foldl_entities_eq entities ⟨none, none, none, none⟩

lemma foldPts_eq (ps : List Point) :
    ∀ b : BBox,
      foldPts b ps = ⟨ps.foldl (fun o p => some (optFold min o p.1)) b.min_x,
                      ps.foldl (fun o p => some (optFold min o p.2)) b.min_y,
                      ps.foldl (fun o p => some (optFold max o p.1)) b.max_x,
                      ps.foldl (fun o p => some (optFold max o p.2)) b.max_y⟩ := by
  induction ps with
  | nil => intro b; rfl
  | cons p ps ih =>
      intro b
      rw [show foldPts b (p :: ps) = foldPts (updateBBox b p) ps from rfl, ih]
      rfl

lemma foldl_optFold_some (f : ℝ → ℝ → ℝ) (g : Point → ℝ) (ps : List Point) :
    ∀ a : ℝ,
      ps.foldl (fun o p => some (optFold f o (g p))) (some a) =
        some (ps.foldl (fun x p => f x (g p)) a) := by
  induction ps with
  | nil => intro a; rfl
  | cons p ps ih =>
      intro a
      rw [List.foldl_cons, List.foldl_cons]
      exact ih (f a (g p))

end BBoxLemmas

/-- C6: the measured area is `(max_x − min_x) * (max_y − min_y) /
1_000_000` over the running min/max of all extent points when at
least one point is observed, and 0 otherwise; a drawing with zero
entities has total length 0 and area 0. -/
theorem bounding_box_area_spec (entities : List Entity) :
    (allPoints entities = [] → calculate_bounding_box_area entities = 0) ∧
    (∀ p rest, allPoints entities = p :: rest →
      calculate_bounding_box_area entities =
        ((rest.map Prod.fst).foldl max p.1 - (rest.map Prod.fst).foldl min p.1) *
        ((rest.map Prod.snd).foldl max p.2 - (rest.map Prod.snd).foldl min p.2) /
          1000000) ∧
    calculate_total_length [] = 0 ∧
    calculate_bounding_box_area [] = 0 := by
  refine ⟨?_, ?_, rfl, rfl⟩
  · intro h
    unfold calculate_bounding_box_area
    rw [bboxOfEntities_eq_foldPts, h]
    rfl
  · intro p rest h
    unfold calculate_bounding_box_area
    rw [bboxOfEntities_eq_foldPts, h, foldPts_eq]
    simp only [List.foldl_cons]
    rw [show (some (optFold min (BBox.min_x ⟨none, none, none, none⟩) p.1)) = some p.1 from rfl,
      show (some (optFold min (BBox.min_y ⟨none, none, none, none⟩) p.2)) = some p.2 from rfl,
      show (some (optFold max (BBox.max_x ⟨none, none, none, none⟩) p.1)) = some p.1 from rfl,
      show (some (optFold max (BBox.max_y ⟨none, none, none, none⟩) p.2)) = some p.2 from rfl,
      foldl_optFold_some min Prod.fst rest p.1,
      foldl_optFold_some min Prod.snd rest p.2,
      foldl_optFold_some max Prod.fst rest p.1,
      foldl_optFold_some max Prod.snd rest p.2]
    simp [bboxArea, List.foldl_map]

/-- Witness for C6 on a drawing holding one line segment. -/
theorem bounding_box_area_spec_witness :
    calculate_bounding_box_area [Entity.LINE ((0:ℝ), (0:ℝ)) ((3:ℝ), (4:ℝ))] =
      (([((3:ℝ), (4:ℝ))].map Prod.fst).foldl max 0 -
        ([((3:ℝ), (4:ℝ))].map Prod.fst).foldl min 0) *
      (([((3:ℝ), (4:ℝ))].map Prod.snd).foldl max 0 -
        ([((3:ℝ), (4:ℝ))].map Prod.snd).foldl min 0) / 1000000 :=
  (bounding_box_area_spec _).2.1 ((0:ℝ), (0:ℝ)) [((3:ℝ), (4:ℝ))] rfl

section GoodBBoxLemmas

lemma goodBBox_update (b : BBox) (p : Point) (h : goodBBox b) :
    goodBBox (updateBBox b p) := by
  rcases h with h | ⟨mn_x, mn_y, mx_x, mx_y, hb, hx, hy⟩
  · subst h
    right
    exact ⟨p.1, p.2, p.1, p.2, rfl, le_refl _, le_refl _⟩
  · subst hb
    right
    refine ⟨min mn_x p.1, min mn_y p.2, max mx_x p.1, max mx_y p.2, rfl, ?_, ?_⟩
    · exact le_trans (min_le_left _ _) (le_trans hx (le_max_left _ _))
    · exact le_trans (min_le_left _ _) (le_trans hy (le_max_left _ _))

lemma bboxArea_update_mono (b : BBox) (p : Point) (h : goodBBox b) :
    bboxArea b ≤ bboxArea (updateBBox b p) := by
  rcases h with h | ⟨mn_x, mn_y, mx_x, mx_y, hb, hx, hy⟩
  · subst h
    show (0:ℝ) ≤ (p.1 - p.1) * (p.2 - p.2) / 1000000
    simp
  · subst hb
    show (mx_x - mn_x) * (mx_y - mn_y) / 1000000 ≤
      (max mx_x p.1 - min mn_x p.1) * (max mx_y p.2 - min mn_y p.2) / 1000000
    have h1 : mx_x - mn_x ≤ max mx_x p.1 - min mn_x p.1 := by
      have ha := le_max_left mx_x p.1
      have hb2 := min_le_left mn_x p.1
      linarith
    have h2 : mx_y - mn_y ≤ max mx_y p.2 - min mn_y p.2 := by
      have ha := le_max_left mx_y p.2
      have hb2 := min_le_left mn_y p.2
      linarith
    have hw : (0:ℝ) ≤ mx_x - mn_x := by linarith
    have hh : (0:ℝ) ≤ mx_y - mn_y := by linarith
    have hmul : (mx_x - mn_x) * (mx_y - mn_y) ≤
        (max mx_x p.1 - min mn_x p.1) * (max mx_y p.2 - min mn_y p.2) :=
      mul_le_mul h1 h2 hh (by linarith)
    linarith

lemma foldPts_good_mono (ps : List Point) :
    ∀ b : BBox, goodBBox b →
      goodBBox (foldPts b ps) ∧ bboxArea b ≤ bboxArea (foldPts b ps) := by
  induction ps with
  | nil => intro b hb; exact ⟨hb, le_refl _⟩
  | cons p ps ih =>
      intro b hb
      have hg := goodBBox_update b p hb
      have hm := bboxArea_update_mono b p hb
      have h2 := ih (updateBBox b p) hg
      exact ⟨h2.1, le_trans hm h2.2⟩

lemma goodBBox_bboxOfEntities (entities : List Entity) :
    goodBBox (bboxOfEntities entities) := by
  rw [bboxOfEntities_eq_foldPts]
  exact (foldPts_good_mono _ _ (Or.inl rfl)).1

lemma bboxArea_nonneg_of_good (b : BBox) (h : goodBBox b) : 0 ≤ bboxArea b := by
  rcases h with h | ⟨mn_x, mn_y, mx_x, mx_y, hb, hx, hy⟩
  · subst h
    exact le_refl 0
  · subst hb
    show (0:ℝ) ≤ (mx_x - mn_x) * (mx_y - mn_y) / 1000000
    apply div_nonneg
    · exact mul_nonneg (by linarith) (by linarith)
    · norm_num

end GoodBBoxLemmas

/-- C10: appending any entity to a drawing can only grow (or keep)
the computed bounding-box area — the running minima only decrease
and the running maxima only increase — and the computed area is
always non-negative. -/
theorem bounding_box_area_monotone (entities : List Entity) (e : Entity) :
    calculate_bounding_box_area entities ≤
      calculate_bounding_box_area (entities ++ [e]) ∧
    0 ≤ calculate_bounding_box_area entities := by
  have hgood := goodBBox_bboxOfEntities entities
  have happ : bboxOfEntities (entities ++ [e]) =
      foldPts (bboxOfEntities entities) (get_entity_vertices e) := by
    unfold bboxOfEntities
    rw [List.foldl_append]
    rfl
  constructor
  · show bboxArea (bboxOfEntities entities) ≤ bboxArea (bboxOfEntities (entities ++ [e]))
    rw [happ]
    exact (foldPts_good_mono _ _ hgood).2
  · exact bboxArea_nonneg_of_good _ hgood

section BadEntityLemmas

lemma get_entity_vertices_of_length_none (e : Entity)
    (h : entityLength e = none) : get_entity_vertices e = [] := by
  cases e with
  | LINE p q => simp [entityLength] at h
  | LWPOLYLINE points closed =>
      cases closed with
      | false => simp [entityLength, calculate_polyline_length] at h
      | true =>
          cases points with
          | nil => rfl
          | cons p rest => simp [entityLength, calculate_polyline_length] at h
  | CIRCLE c radius => simp [entityLength] at h
  | ARC c radius start_angle end_angle => simp [entityLength] at h
  | SPLINE spline_points => simp [entityLength] at h
  | UNSUPPORTED => simp [entityLength] at h

end BadEntityLemmas

/-- C7: an entity of an unrecognized dxftype, or one whose
per-entity processing raises, contributes zero length and no extent
points, and removing it from a drawing changes neither the total
length nor the bounding-box area of the remaining entities. -/
theorem bad_entity_contributes_nothing (e : Entity) (l1 l2 : List Entity)
    (h : e = Entity.UNSUPPORTED ∨ entityLength e = none) :
    (entityLength e).getD 0 = 0 ∧
    get_entity_vertices e = [] ∧
    calculate_total_length (l1 ++ e :: l2) = calculate_total_length (l1 ++ l2) ∧
    calculate_bounding_box_area (l1 ++ e :: l2) =
      calculate_bounding_box_area (l1 ++ l2) := by
  have hlen : (entityLength e).getD 0 = 0 := by
    rcases h with h | h
    · subst h; rfl
    · rw [h]; rfl
  have hverts : get_entity_vertices e = [] := by
    rcases h with h | h
    · subst h; rfl
    · exact get_entity_vertices_of_length_none e h
  refine ⟨hlen, hverts, ?_, ?_⟩
  · unfold calculate_total_length
    rw [List.foldl_append, List.foldl_append, List.foldl_cons, hlen, add_zero]
  · unfold calculate_bounding_box_area bboxOfEntities
    rw [List.foldl_append, List.foldl_append, List.foldl_cons, hverts]
    rfl

/-- Witness for C7: an unsupported entity amid a one-circle drawing. -/
theorem bad_entity_contributes_nothing_witness :
    (entityLength Entity.UNSUPPORTED).getD 0 = 0 ∧
    get_entity_vertices Entity.UNSUPPORTED = [] ∧
    calculate_total_length (Entity.UNSUPPORTED :: [Entity.CIRCLE ((0:ℝ), (0:ℝ)) 1]) =
      calculate_total_length [Entity.CIRCLE ((0:ℝ), (0:ℝ)) 1] ∧
    calculate_bounding_box_area
        (Entity.UNSUPPORTED :: [Entity.CIRCLE ((0:ℝ), (0:ℝ)) 1]) =
      calculate_bounding_box_area [Entity.CIRCLE ((0:ℝ), (0:ℝ)) 1] :=
  bad_entity_contributes_nothing Entity.UNSUPPORTED []
    [Entity.CIRCLE ((0:ℝ), (0:ℝ)) 1] (Or.inl rfl)

/-- C8: a Circle of radius `r ≥ 0` has length `2πr`, its extent is
the 4 axis-extreme points `center ± r` on each axis, and the min/max
bounding box over those points has width and height exactly `2r`
(hence area `2r * 2r / 1_000_000`). -/
theorem circle_length_and_extent (c : Point) (radius : ℝ) (h : 0 ≤ radius) :
    entityLength (Entity.CIRCLE c radius) = some (2 * Real.pi * radius) ∧
    get_entity_vertices (Entity.CIRCLE c radius) =
      [(c.1 - radius, c.2), (c.1 + radius, c.2),
       (c.1, c.2 - radius), (c.1, c.2 + radius)] ∧
    (bboxOfEntities [Entity.CIRCLE c radius]).min_x = some (c.1 - radius) ∧
    (bboxOfEntities [Entity.CIRCLE c radius]).max_x = some (c.1 + radius) ∧
    (bboxOfEntities [Entity.CIRCLE c radius]).min_y = some (c.2 - radius) ∧
    (bboxOfEntities [Entity.CIRCLE c radius]).max_y = some (c.2 + radius) ∧
    (c.1 + radius) - (c.1 - radius) = 2 * radius ∧
    (c.2 + radius) - (c.2 - radius) = 2 * radius ∧
    calculate_bounding_box_area [Entity.CIRCLE c radius] =
      2 * radius * (2 * radius) / 1000000 := by
  have hbox : bboxOfEntities [Entity.CIRCLE c radius] =
      ⟨some (c.1 - radius), some (c.2 - radius),
       some (c.1 + radius), some (c.2 + radius)⟩ := by
    show foldPts ⟨none, none, none, none⟩
      (get_entity_vertices (Entity.CIRCLE c radius)) = _
    simp only [get_entity_vertices, foldPts, List.foldl_cons, List.foldl_nil,
      updateBBox, optFold]
    have e1 : min (c.1 - radius) (c.1 + radius) = c.1 - radius :=
      min_eq_left (by linarith)
    have e2 : min (c.1 - radius) c.1 = c.1 - radius := min_eq_left (by linarith)
    have e3 : max (c.1 - radius) (c.1 + radius) = c.1 + radius :=
      max_eq_right (by linarith)
    have e4 : max (c.1 + radius) c.1 = c.1 + radius := max_eq_left (by linarith)
    have f1 : min c.2 c.2 = c.2 := min_self c.2
    have f2 : min c.2 (c.2 - radius) = c.2 - radius := min_eq_right (by linarith)
    have f3 : min (c.2 - radius) (c.2 + radius) = c.2 - radius :=
      min_eq_left (by linarith)
    have g1 : max c.2 c.2 = c.2 := max_self c.2
    have g2 : max c.2 (c.2 - radius) = c.2 := max_eq_left (by linarith)
    have g3 : max c.2 (c.2 + radius) = c.2 + radius := max_eq_right (by linarith)
    rw [e1, e2, e2, e3, e4, e4, f1, f2, f3, g1, g2, g3]
  refine ⟨rfl, rfl, ?_, ?_, ?_, ?_, by ring, by ring, ?_⟩
  · rw [hbox]
  · rw [hbox]
  · rw [hbox]
  · rw [hbox]
  · show bboxArea (bboxOfEntities [Entity.CIRCLE c radius]) = _
    rw [hbox]
    show ((c.1 + radius) - (c.1 - radius)) * ((c.2 + radius) - (c.2 - radius)) /
      1000000 = 2 * radius * (2 * radius) / 1000000
    ring

/-- Witness for C8 at the unit circle centered at the origin. -/
theorem circle_length_and_extent_witness :
    entityLength (Entity.CIRCLE ((0:ℝ), (0:ℝ)) 1) = some (2 * Real.pi * 1) ∧
    get_entity_vertices (Entity.CIRCLE ((0:ℝ), (0:ℝ)) 1) =
      [((0:ℝ) - 1, (0:ℝ)), ((0:ℝ) + 1, (0:ℝ)),
       ((0:ℝ), (0:ℝ) - 1), ((0:ℝ), (0:ℝ) + 1)] ∧
    (bboxOfEntities [Entity.CIRCLE ((0:ℝ), (0:ℝ)) 1]).min_x = some ((0:ℝ) - 1) ∧
    (bboxOfEntities [Entity.CIRCLE ((0:ℝ), (0:ℝ)) 1]).max_x = some ((0:ℝ) + 1) ∧
    (bboxOfEntities [Entity.CIRCLE ((0:ℝ), (0:ℝ)) 1]).min_y = some ((0:ℝ) - 1) ∧
    (bboxOfEntities [Entity.CIRCLE ((0:ℝ), (0:ℝ)) 1]).max_y = some ((0:ℝ) + 1) ∧
    ((0:ℝ) + 1) - ((0:ℝ) - 1) = 2 * 1 ∧
    ((0:ℝ) + 1) - ((0:ℝ) - 1) = 2 * 1 ∧
    calculate_bounding_box_area [Entity.CIRCLE ((0:ℝ), (0:ℝ)) 1] =
      2 * 1 * (2 * 1) / 1000000 :=
  circle_length_and_extent ((0:ℝ), (0:ℝ)) 1 (by norm_num)

/-- C9: the extent of an Arc is exactly the two endpoint positions
(center plus radius times `(cos θ, sin θ)` at the start and end
angles) and nothing else; for the concrete 45°–135° unit arc the
resulting `max_y` is `√2/2 < 1`, underestimating the true topmost
point of the arc. -/
theorem arc_extent_endpoints_only (c : Point) (radius start_angle end_angle : ℝ) :
    get_entity_vertices (Entity.ARC c radius start_angle end_angle) =
      [(c.1 + radius * Real.cos (radians start_angle),
        c.2 + radius * Real.sin (radians start_angle)),
       (c.1 + radius * Real.cos (radians end_angle),
        c.2 + radius * Real.sin (radians end_angle))] ∧
    (get_entity_vertices (Entity.ARC c radius start_angle end_angle)).length = 2 ∧
    ((bboxOfEntities [Entity.ARC ((0:ℝ), (0:ℝ)) 1 45 135]).max_y =
        some (Real.sqrt 2 / 2) ∧
      Real.sqrt 2 / 2 < 1) := by
  refine ⟨rfl, rfl, ?_, ?_⟩
  · have h45 : radians 45 = Real.pi / 4 := by unfold radians; ring
    have h135 : radians 135 = Real.pi - Real.pi / 4 := by unfold radians; ring
    show (foldPts ⟨none, none, none, none⟩
      (get_entity_vertices (Entity.ARC ((0:ℝ), (0:ℝ)) 1 45 135))).max_y = _
    simp only [get_entity_vertices, foldPts, List.foldl_cons, List.foldl_nil,
      updateBBox, optFold, h45, h135, Real.sin_pi_sub, Real.sin_pi_div_four]
    norm_num
  · have hs : Real.sqrt 2 < 2 := by
      nlinarith [Real.sq_sqrt (show (0:ℝ) ≤ 2 by norm_num), Real.sqrt_nonneg 2]
    linarith
